import Mathlib

/-!
Verification of the CHAOS plan-execution core against its specification.

The definitions below are a shallow embedding of the Python sources:
`chaos/types.py`, `chaos/core/state.py`, `chaos/core/execution.py`,
`chaos/agents/sensemaker.py`, `chaos/data/sandbox.py` and
`sandbox/executor.py`.  Python strings are modelled as `String` (or
`List Char` where character counts matter), dictionaries keyed by step
number as functions `Int → Option _`, and the external collaborators
(LLM decision maker, information seeker, subprocess runtime) as oracle
parameters.  Machine integers are modelled as `Int`/`Nat`; Python ints
are unbounded, so no overflow modelling is needed.
-/

namespace Chaos

/-- Step status literals of `StepState.status` in `chaos/types.py`
(`"pending" | "completed" | "needs_clarification" | "failed"`). -/
inductive StepStatus where
  | pending
  | completed
  | needs_clarification
  | failed
deriving DecidableEq, Repr

/-- Model of `StepState` (chaos/types.py, lines 77-111).  The pydantic
model declares exactly these fields; note that it declares no
`user_accepted` field, and pydantic models silently ignore unknown
keyword arguments, so a call site passing `user_accepted=True`
produces a value of exactly this shape. -/
structure StepState where
  step : Int
  status : StepStatus := .pending
  result : Option String := none
  error : Option String := none
  clarification_request : Option String := none
  clarification_response : Option String := none
  failure_reason : Option String := none
deriving DecidableEq, Repr

/-- Model of the factory `StepState.from_result` (chaos/types.py).
The Python method builds `{step, status, result}`, inherits the two
clarification fields from `previous` when given, and then lets the
explicitly passed keyword arguments (`failure_reason`,
`clarification_response` at the repository call sites) override. -/
def StepState.from_result (step : Int) (status : StepStatus)
    (result : Option String := none) (previous : Option StepState := none)
    (failure_reason : Option String := none)
    (clarification_response : Option String := none) : StepState :=
  { step := step
    status := status
    result := result
    error := none
    clarification_request := previous.bind (fun p => p.clarification_request)
    clarification_response :=
      match clarification_response with
      | some c => some c
      | none => previous.bind (fun p => p.clarification_response)
    failure_reason := failure_reason }

/-- Model of `ExecutionResult` (chaos/types.py): the three-field shape
returned by the sandbox executor. -/
structure ExecutionResult where
  result : Option String := none
  error : Option String := none
  truncated : Bool := false
deriving DecidableEq, Repr

/-- Derived `success` property of `ExecutionResult`: error is None. -/
def ExecutionResult.success (r : ExecutionResult) : Bool :=
  r.error.isNone

/-- Model of `InfoSeekerResult` (chaos/types.py).  `params` is the
string-to-string parameter dict, modelled as an association list. -/
structure InfoSeekerResult where
  request : String := ""
  source : String := ""
  query_type : String := "exec"
  params : List (String × String) := []
  results : String := ""
  success : Bool := false
deriving DecidableEq, Repr

/-- Python `params.get(key, "")` on the parameter dict. -/
def getParam (ps : List (String × String)) (k : String) : String :=
  (ps.lookup k).getD ""

/-- Model of the discriminated union `SensemakerResponse`
(chaos/types.py): `CompleteResponse`, `NeedsInfoResponse`,
`NeedsCorrectionResponse`.  A decision produced by the sensemaker
collaborator each loop turn. -/
inductive SMDecision where
  | complete (answer : String) (supporting_evidence : List String)
  | needsInfo (current_step : Int) (request : String) (reasoning : String)
  | needsCorrection (affected_step : Int) (issue_description : String)
      (proposed_correction : String) (reasoning : String)
deriving DecidableEq, Repr

/-- Model of `FinalAnswer` (chaos/types.py), returned by
`SensemakerAgent.get_answer`. -/
structure FinalAnswer where
  answer : String := ""
  supporting_evidence : List String := []
deriving DecidableEq, Repr

/- ===== chaos/core/state.py ===== -/

/-- Model of `MemoryEntry` (chaos/core/state.py, lines 9-18). -/
structure MemoryEntry where
  code : String
  result : Option String
  success : Bool := true
  error : Option String := none
  step : Option Int := none
  is_internal_context : Bool := false
deriving DecidableEq, Repr

/-- Model of `ExecutionState` (chaos/core/state.py): current-step
pointer, step-state dict (a total function to `Option StepState`,
`none` meaning the key is absent, i.e. the step is pending), and the
append-only entry list. -/
structure ExecutionState where
  current_step : Int := 0
  step_states : Int → Option StepState := fun _ => none
  entries : List MemoryEntry := []

/-- `ExecutionState.record_result` (state.py, lines 48-85): append a
memory entry, then overwrite the step state with `completed` (success)
or `failed` (failure). -/
def ExecutionState.record_result (st : ExecutionState) (step : Int)
    (code : String) (result : Option String) (success : Bool)
    (error : Option String := none) : ExecutionState :=
  let entry : MemoryEntry :=
    { code := code
      result := if success then result else none
      success := success
      error := if success then none else error
      step := some step }
  let st1 := { st with entries := st.entries ++ [entry] }
  if success then
    { st1 with step_states := fun k =>
        if k = step then some (StepState.from_result step .completed result)
        else st1.step_states k }
  else
    { st1 with step_states := fun k =>
        if k = step then some (StepState.from_result step .failed none none error)
        else st1.step_states k }

/-- `ExecutionState.get_step_state` (state.py, lines 87-89). -/
def ExecutionState.get_step_state (st : ExecutionState) (step : Int) :
    Option StepState :=
  st.step_states step

/-- `ExecutionState.set_step_state` (state.py, lines 91-93). -/
def ExecutionState.set_step_state (st : ExecutionState) (step : Int)
    (state : StepState) : ExecutionState :=
  { st with step_states := fun k =>
      if k = step then some state else st.step_states k }

/-- `ExecutionState.reset_step` (state.py, lines 95-100): delete the
StepState for `step`, and if `step <= current_step`, set the pointer
to `step - 1`. -/
def ExecutionState.reset_step (st : ExecutionState) (step : Int) :
    ExecutionState :=
  { st with
    step_states := fun k => if k = step then none else st.step_states k
    current_step :=
      if step ≤ st.current_step then step - 1 else st.current_step }

/-- `ExecutionState.reset` (state.py, lines 102-106). -/
def ExecutionState.reset (_st : ExecutionState) : ExecutionState :=
  { current_step := 0, step_states := fun _ => none, entries := [] }

/-- `ExecutionState.record_context` (state.py, lines 108-112). -/
def ExecutionState.record_context (st : ExecutionState) (step : Int)
    (message : String) : ExecutionState :=
  { st with entries := st.entries ++
      [{ code := "", result := some message, success := true,
         error := none, step := some step, is_internal_context := true }] }

/-- The dict produced per entry by `ExecutionState.export`
(state.py, lines 136-150), modelled as a tuple of its six fields. -/
def exportEntry (e : MemoryEntry) :
    String × Option String × Bool × Option String × Option Int × Bool :=
  (e.code, e.result, e.success, e.error, e.step, e.is_internal_context)

/-- `ExecutionState.export` (state.py, lines 136-150): the entry list,
in insertion order, each entry rendered as its field dict. -/
def ExecutionState.export (st : ExecutionState) :
    List (String × Option String × Bool × Option String × Option Int × Bool) :=
  st.entries.map exportEntry

/- ===== sandbox/executor.py ===== -/

/-- Truncation step of `serialize_result` (sandbox/executor.py, lines
22-39), acting on the already-serialized string (modelled as a list of
characters so that Python's character-based `len` and slicing are
exact): `truncated = len(s) > 5000`; if truncated, keep the first 5000
characters. -/
def serialize_truncate (s : List Char) : List Char × Bool :=
  let max_chars := 5000
  if max_chars < s.length then (s.take max_chars, true) else (s, false)

/- ===== chaos/core/execution.py : _handle_correction, skip branch ===== -/

/-- Model of the `decision == "skip"` branch of
`ExecutionEngine._handle_correction` (chaos/core/execution.py, lines
213-231).  If the affected step has a recorded state, a fresh
`StepState` is stored for it with status `completed` and the prior
result; the Python call passes `user_accepted=True`, but `StepState`
(chaos/types.py) declares no such field and pydantic silently ignores
unknown keyword arguments, so the stored value is exactly the
`StepState` built here.  The pointer is raised to the affected step
when that step is at or beyond it.  The returned second component is
the retrieval outcome of the turn: `none` means no retrieval was
dispatched (the loop sets `new_info = None` and continues). -/
def handle_correction_skip (st : ExecutionState) (affected_step : Int) :
    ExecutionState × Option InfoSeekerResult :=
  match st.get_step_state affected_step with
  | some step_state =>
      let st1 := st.set_step_state affected_step
        { step := affected_step, status := .completed, result := step_state.result }
      let st2 :=
        if st1.current_step ≤ affected_step then { st1 with current_step := affected_step }
        else st1
      (st2, none)
  | none => (st, none)

/-- A concrete execution state for evaluating the skip branch: the
pointer is at step 2 and step 2 is recorded `completed` with result
`R`. -/
def skipExampleState : ExecutionState :=
  { current_step := 2
    step_states := fun k =>
      if k = 2 then some { step := 2, status := .completed, result := some "R" }
      else none
    entries := [] }

/- ===== chaos/data/sandbox.py : execute_sandboxed ===== -/

/-- `CONTAINER_TIMEOUT` (chaos/data/sandbox.py). -/
def CONTAINER_TIMEOUT : Nat := 30

/-- Python values produced by `json.loads`, to the granularity the
modelled branches distinguish them: a JSON number's numeric value is
irrelevant on every modelled path (any number in a string-or-null or
boolean field position fails validation the same way), so `num`
carries no payload; this also keeps floating point out of the model. -/
inductive JsonVal where
  | null
  | bool (b : Bool)
  | num
  | str (s : String)
  | arr (elems : List JsonVal)
  | obj (fields : List (String × JsonVal))

/-- Whether a parsed JSON value is an object (a Python dict - the only
values on which `.get` exists). -/
def JsonVal.isObj : JsonVal → Bool
  | .obj _ => true
  | _ => false

/-- The exceptions `execute_sandboxed` can let escape: only
`json.loads` is inside the `try` (sandbox.py, lines 58-61), so
`output.get` on a parsed non-dict raises `AttributeError` (line 63),
and the pydantic `ExecutionResult` construction raises a
`ValidationError` on field values outside the declared types
(lines 69-73).  Both propagate to the caller. -/
inductive PyError where
  | attributeError
  | validationError
deriving DecidableEq, Repr

/-- Python `output.get(key)` on a parsed JSON object (default
`None`, i.e. `none`). -/
def getField (fields : List (String × JsonVal)) (k : String) : Option JsonVal :=
  fields.lookup k

/-- Pydantic validation of a `str | None = None` field of
`ExecutionResult` against the Python value of a parsed JSON field: an
absent key or `null` yields `None`, a string passes through, and any
other value raises a `ValidationError` at the construction on
sandbox.py lines 69-73.  (Lax-mode coercion corner cases vary with
the installed pydantic version, which the repository does not pin;
no theorem below leans on the mistyped arms.) -/
def validateOptStr : Option JsonVal → Except PyError (Option String)
  | none => .ok none
  | some .null => .ok none
  | some (.str s) => .ok (some s)
  | some _ => .error .validationError

/-- Pydantic validation of the `truncated : bool = False` field:
`output.get("truncated", False)` supplies `False` when the key is
absent, a JSON boolean passes through, and any other value raises a
`ValidationError` (same pydantic-version caveat as
`validateOptStr`). -/
def validateBool : Option JsonVal → Except PyError Bool
  | none => .ok false
  | some (.bool b) => .ok b
  | some _ => .error .validationError

/-- Well-typedness of a string-or-null field value. -/
def wellTypedField (v : Option JsonVal) : Bool :=
  match v with
  | none => true
  | some .null => true
  | some (.str _) => true
  | some _ => false

/-- Well-typedness of the boolean `truncated` field value. -/
def wellTypedBoolField (v : Option JsonVal) : Bool :=
  match v with
  | none => true
  | some (.bool _) => true
  | some _ => false

/-- Well-typedness of a parsed worker object: `result` and `error`
absent, `null` or strings, `truncated` absent or boolean - exactly
the objects on which the `ExecutionResult` construction cannot
raise. -/
def wellTypedOutput (fields : List (String × JsonVal)) : Bool :=
  wellTypedField (getField fields "result") &&
  wellTypedField (getField fields "error") &&
  wellTypedBoolField (getField fields "truncated")

/-- Outcome of the `subprocess.run` call and the subsequent
`json.loads` in `execute_sandboxed`, supplied by the environment:
the docker binary may be missing (`FileNotFoundError`), the
wall-clock timeout may expire (`subprocess.TimeoutExpired`), or the
process completes with an exit code, raw stdout and stderr.
`parsed` is the result of `json.loads(proc.stdout)`: `none` when it
raises (`JSONDecodeError`/`ValueError`, caught at lines 60-61),
otherwise the parsed JSON value - consulted only when the exit code
is zero. -/
inductive ProcOutcome where
  | fileNotFound
  | timeoutExpired
  | completed (returncode : Int) (stdout : String) (stderr : String)
      (parsed : Option JsonVal)

/-- Model of `execute_sandboxed` (chaos/data/sandbox.py, lines
16-73).  The four guarded failures (docker missing, timeout, nonzero
exit, stdout that fails JSON parsing) return `ExecutionResult`
envelopes.  Only `json.loads` is guarded by the `try`: when a
zero-exit stdout parses to a non-object JSON value, the field access
`output.get("error")` at line 63 raises `AttributeError`, and when
it parses to an object with mistyped fields the `ExecutionResult`
construction at lines 69-73 raises a `ValidationError`; both escape
to the caller, modelled with `Except.error`. -/
def execute_sandboxed (outcome : ProcOutcome) : Except PyError ExecutionResult :=
  match outcome with
  | .fileNotFound =>
      .ok { result := none, error := some "Docker is not installed or not in PATH" }
  | .timeoutExpired =>
      .ok { result := none,
            error := some ("Sandbox execution timed out after "
              ++ toString CONTAINER_TIMEOUT ++ "s") }
  | .completed rc stdout stderr parsed =>
      if rc ≠ 0 then
        .ok { result := none,
              error := some ("Sandbox container failed (exit " ++ toString rc ++ "): "
                ++ stderr.trim) }
      else
        match parsed with
        | none =>
            .ok { result := none,
                  error := some ("Sandbox returned invalid JSON: " ++ stdout.take 500) }
        | some (.obj fields) =>
            match validateOptStr (getField fields "error") with
            | .error e => .error e
            | .ok err =>
              match validateOptStr (getField fields "result") with
              | .error e => .error e
              | .ok res =>
                match validateBool (getField fields "truncated") with
                | .error e => .error e
                | .ok trunc =>
                    .ok { result := res, error := err, truncated := trunc }
        | some _ => .error .attributeError

/- ===== sandbox/executor.py : main ===== -/

/-- Outcome of the in-container worker `main` up to the point where a
snippet is actually executed: either an error envelope written to
stdout (`json.dump` of a three-field dict), or execution of the
snippet with a chosen primary dataframe and the full dataset namespace
(the subsequent `exec`/`serialize_result` continuation depends on the
snippet and is outside this model). -/
inductive WorkerResult (DF : Type) where
  | errorOut (envelope : ExecutionResult)
  | executed (primary : DF) (datasets : List (String × DF))
deriving DecidableEq, Repr

/-- Primary-dataframe selection in `main` (sandbox/executor.py, lines
60-63): look the requested name up in the loaded datasets; when
absent, fall back to the first available dataset (the datasets dict is
built from the sorted CSV glob, modelled as an association list in
that order).  `none` only when no datasets exist at all. -/
def pick_primary {DF : Type} (datasets : List (String × DF))
    (primary_source : String) : Option DF :=
  match datasets.lookup primary_source with
  | some d => some d
  | none => datasets.head?.map Prod.snd

/-- Model of `main` (sandbox/executor.py, lines 42-86) after the
input envelope has been parsed: empty code and a fully absent dataset
directory produce their error envelopes; otherwise the snippet runs
against the selected primary dataframe with all datasets in the
namespace. -/
def worker_main {DF : Type} (code : String) (primary_source : String)
    (datasets : List (String × DF)) : WorkerResult DF :=
  if code = "" then
    .errorOut { result := none, error := some "No code provided", truncated := false }
  else
    match pick_primary datasets primary_source with
    | none =>
        .errorOut { result := none, error := some "No datasets found in /data",
                    truncated := false }
    | some df => .executed df datasets

/- ===== chaos/core/execution.py : execute_plan step-attempt tracking ===== -/

/-- The step-attempt tracking variables of `execute_plan`
(chaos/core/execution.py, lines 46-47): `last_step` (initially
`None`) and `step_retries` (initially 0). -/
structure Track where
  last_step : Option Int := none
  step_retries : Nat := 0
deriving DecidableEq, Repr

/-- The two ways `execute_plan` returns: the complete-path answer
(execution.py, lines 78-90) or the forced best-effort answer
synthesized by `sensemaker.get_answer()` after the step-attempt
budget is exhausted (lines 65-72). -/
inductive LoopOutcome where
  | forcedAnswer (fa : FinalAnswer)
  | completedAnswer (answer : String) (supporting_evidence : List String)
deriving DecidableEq, Repr

/-- Control skeleton of the `while True` loop of `execute_plan`
(chaos/core/execution.py, lines 49-136), iterated over a finite
prefix of the decision collaborator's outputs.  Each list element is
the `SensemakerResponse` produced by one `sensemaker.process` call.
The needs-info branch performs the attempt tracking of lines 56-72
verbatim: reset the counter and remember the step when the requested
step number differs from the previous turn's, otherwise increment and
compare against `max_step_attempts`; on exhaustion the loop returns
the best-effort answer from `sensemaker.get_answer()` (oracle
`get_answer`).  Retrieval dispatch, state recording, display and
logging touch neither the counter nor the loop exit and are elided.
`none` means the supplied decisions were exhausted with the loop
still running. -/
def loopRun (max_step_attempts : Nat) (get_answer : FinalAnswer) :
    Track → List SMDecision → Option LoopOutcome
  | _, [] => none
  | t, d :: ds =>
    match d with
    | .complete answer ev => some (.completedAnswer answer ev)
    | .needsCorrection _ _ _ _ => loopRun max_step_attempts get_answer t ds
    | .needsInfo current_step _ _ =>
        if some current_step ≠ t.last_step then
          loopRun max_step_attempts get_answer
            { last_step := some current_step, step_retries := 0 } ds
        else if max_step_attempts ≤ t.step_retries + 1 then
          some (.forcedAnswer get_answer)
        else
          loopRun max_step_attempts get_answer
            { t with step_retries := t.step_retries + 1 } ds

/- ===== chaos/agents/sensemaker.py : process ===== -/

/-- The current-step pointer update at the end of
`SensemakerAgent.process` (chaos/agents/sensemaker.py, lines
169-176): for a needs-info decision, jump to the named step when it
differs from the pointer, otherwise increment the pointer; other
decision kinds leave the pointer alone. -/
def pointerUpdate (cur : Int) (d : SMDecision) : Int :=
  match d with
  | .needsInfo s _ _ => if s ≠ cur then s else cur + 1
  | _ => cur

/-- The pointer after a sequence of `process` turns, folding
`pointerUpdate` over the decisions returned turn by turn. -/
def runPointer : Int → List SMDecision → Int
  | cur, [] => cur
  | cur, d :: ds => runPointer (pointerUpdate cur d) ds

/-- Modelled from the spec: one entry of the sensemaker's working
memory as appended by `Memory.add` (called at sensemaker.py, lines
123-129 with keywords `code`, `result`, `success`, `error`, `step`).
The `chaos.memory` class providing `add` is absent from src/ (only
its callers are); the spec describes the record as an append-only
audit entry `(step, code, result|null, success, error|null)`. -/
structure SMMemoryEntry where
  code : String
  result : Option String
  success : Bool
  error : Option String
  step : Int
deriving DecidableEq, Repr

/-- The sensemaker-agent state the claims observe: its internal
current-step pointer (`self._current_step`, initially 0) and its
working memory. -/
structure SMState where
  current_step : Int := 0
  memory : List SMMemoryEntry := []
deriving DecidableEq, Repr

/-- Model of `SensemakerAgent.process` (chaos/agents/sensemaker.py,
lines 114-176) on the state the claims observe.  When new information
is present, a memory entry is appended first, attributed to the
pointer as it stands on entry (lines 122-129); the LLM then produces
the decision `d` (oracle), and for a needs-info decision the pointer
is updated per lines 169-176.  The `_step_states` bookkeeping of
lines 131-133 touches neither the pointer nor the memory and is
elided. -/
def smProcess (st : SMState) (new_info : Option InfoSeekerResult)
    (d : SMDecision) : SMState :=
  let st1 : SMState :=
    match new_info with
    | none => st
    | some info =>
        { st with memory := st.memory ++
            [{ code := getParam info.params "code"
               result := if info.success then some info.results else none
               success := info.success
               error := if info.success then none else some info.results
               step := st.current_step }] }
  { st1 with current_step := pointerUpdate st1.current_step d }

/- ===== chaos/core/execution.py : _seek_with_retries ===== -/

/-- The per-attempt request construction of `_seek_with_retries`
(chaos/core/execution.py, lines 144-149): the original request,
extended - once failures have accumulated - with the numbered failure
texts of all previous attempts, in order. -/
def buildRequest (info_request : String) (error_history : List String) : String :=
  if error_history.isEmpty then info_request
  else
    info_request ++ "\n\nPrevious errors:\n"
      ++ String.intercalate "\n"
          ((error_history.enum).map
            (fun p => "- Attempt " ++ toString (p.1 + 1) ++ ": " ++ p.2))

/-- The retry loop of `_seek_with_retries` (execution.py, lines
140-165).  `seeker` is the information-seeker oracle, indexed by
attempt number and given the request text passed on that attempt;
`attempt` is the next attempt index, the second argument counts the
remaining attempts of the budget, `error_history` carries the failure
texts so far and `last` the last seeker result (`new_info` in the
Python).  The first component of the result is the returned
`InfoSeekerResult`, where `none` models the `AssertionError` raised
by `assert new_info is not None` when no attempt ever ran; the second
component lists the request texts actually passed to the seeker, in
call order. -/
def seekGo (seeker : Nat → String → InfoSeekerResult) (info_request : String) :
    Nat → Nat → List String → Option InfoSeekerResult →
    Option InfoSeekerResult × List String
  | _, 0, _, last => (last, [])
  | attempt, remaining + 1, error_history, _ =>
      let req := buildRequest info_request error_history
      let res := seeker attempt req
      if res.success then (some res, [req])
      else
        let rest := seekGo seeker info_request (attempt + 1) remaining
          (error_history ++ [res.results]) (some res)
        (rest.1, req :: rest.2)

/-- `_seek_with_retries` (execution.py, lines 138-165) with retry
budget `max_code_retries`. -/
def seekWithRetries (max_code_retries : Nat)
    (seeker : Nat → String → InfoSeekerResult) (info_request : String) :
    Option InfoSeekerResult × List String :=
  seekGo seeker info_request 0 max_code_retries [] none

/-- Reference sequence: the error history accumulated before attempt
`n` when every attempt before `n` fails - the failure texts of
attempts `0..n-1` in order, each produced on the request built from
the history before it. -/
def errHist (seeker : Nat → String → InfoSeekerResult)
    (info_request : String) : Nat → List String
  | 0 => []
  | n + 1 =>
      let h := errHist seeker info_request n
      h ++ [(seeker n (buildRequest info_request h)).results]

/-- Reference sequence: the request text passed on attempt `n` (when
all previous attempts fail). -/
def reqAt (seeker : Nat → String → InfoSeekerResult)
    (info_request : String) (n : Nat) : String :=
  buildRequest info_request (errHist seeker info_request n)

/-- Reference sequence: the seeker result of attempt `n` (when all
previous attempts fail). -/
def resAt (seeker : Nat → String → InfoSeekerResult)
    (info_request : String) (n : Nat) : InfoSeekerResult :=
  seeker n (reqAt seeker info_request n)

/-- A concrete information seeker that succeeds immediately, used for
witnessing the retry-helper theorem. -/
def constSeeker : Nat → String → InfoSeekerResult :=
  fun _ _ =>
    { request := "", source := "csv", query_type := "exec", params := [],
      results := "ok", success := true }

/- ===== C4: result truncation ===== -/

/-- C4: for any serialized result string longer than 5000 characters,
the sandbox executor returns exactly the first 5000 characters with
`truncated = true`; for strings of at most 5000 characters the value
is unchanged and `truncated = false`. -/
theorem serialize_result_truncation (s : List Char) :
    (5000 < s.length →
      (serialize_truncate s).1.length = 5000 ∧ (serialize_truncate s).2 = true) ∧
    (s.length ≤ 5000 →
      (serialize_truncate s).1 = s ∧ (serialize_truncate s).2 = false) := by
  by_cases h : 5000 < s.length
  · refine ⟨fun _ => ?_, fun hle => absurd h (by omega)⟩
    simp [serialize_truncate, h, List.length_take]
    omega
  · refine ⟨fun hgt => absurd hgt h, fun _ => ?_⟩
    simp [serialize_truncate, h]

/-- Witness for C4 at concrete inputs: a 5001-character string is cut
to length 5000 with the flag set, and the empty string passes through
untouched. -/
theorem serialize_result_truncation_witness :
    ((serialize_truncate (List.replicate 5001 'a')).1.length = 5000 ∧
      (serialize_truncate (List.replicate 5001 'a')).2 = true) ∧
    ((serialize_truncate ([] : List Char)).1 = [] ∧
      (serialize_truncate ([] : List Char)).2 = false) :=
  ⟨(serialize_result_truncation (List.replicate 5001 'a')).1
      (by rw [List.length_replicate]; norm_num),
   (serialize_result_truncation ([] : List Char)).2 (by simp)⟩

/- ===== C7: reset_step ===== -/

/-- C7: after `reset_step s`, the step state for `s` is absent
(`get_step_state` returns `none`, i.e. pending); the pointer becomes
`s - 1` when it was at or beyond `s` and is unchanged otherwise; every
other step state is unchanged. -/
theorem reset_step_spec (st : ExecutionState) (s : Int) :
    (st.reset_step s).get_step_state s = none ∧
    (s ≤ st.current_step → (st.reset_step s).current_step = s - 1) ∧
    (st.current_step < s → (st.reset_step s).current_step = st.current_step) ∧
    (∀ k : Int, k ≠ s →
      (st.reset_step s).get_step_state k = st.get_step_state k) := by
  refine ⟨?_, fun h => ?_, fun h => ?_, fun k hk => ?_⟩
  · simp [ExecutionState.reset_step, ExecutionState.get_step_state]
  · simp [ExecutionState.reset_step, h]
  · have hns : ¬ s ≤ st.current_step := by omega
    simp [ExecutionState.reset_step, hns]
  · simp [ExecutionState.reset_step, ExecutionState.get_step_state, hk]

/-- Witness for C7 at a concrete state: pointer 3 with steps 2 and 3
recorded; resetting step 2 removes step 2, rewinds the pointer to 1
and leaves step 3 untouched. -/
theorem reset_step_spec_witness :
    ((ExecutionState.reset_step
        { current_step := 3
          step_states := fun k =>
            if k = 2 then some { step := 2, status := .completed }
            else if k = 3 then some { step := 3, status := .completed }
            else none
          entries := [] } 2).get_step_state 2 = none) ∧
    ((ExecutionState.reset_step
        { current_step := 3
          step_states := fun k =>
            if k = 2 then some { step := 2, status := .completed }
            else if k = 3 then some { step := 3, status := .completed }
            else none
          entries := [] } 2).current_step = 1) ∧
    ((ExecutionState.reset_step
        { current_step := 3
          step_states := fun k =>
            if k = 2 then some { step := 2, status := .completed }
            else if k = 3 then some { step := 3, status := .completed }
            else none
          entries := [] } 2).get_step_state 3 =
      some { step := 3, status := .completed }) := by
  have h := reset_step_spec
    { current_step := 3
      step_states := fun k =>
        if k = 2 then some { step := 2, status := .completed }
        else if k = 3 then some { step := 3, status := .completed }
        else none
      entries := [] } 2
  refine ⟨h.1, h.2.1 (by norm_num), ?_⟩
  have h3 := h.2.2.2 3 (by norm_num)
  rw [h3]
  simp [ExecutionState.get_step_state]

/- ===== C9: append-only execution records ===== -/

/-- C9: every mutating `ExecutionState` operation except `reset`
treats the entry list as append-only: `record_result` and
`record_context` extend it by exactly one entry at the end (so every
previously appended record keeps its value and position), while
`set_step_state` and `reset_step` leave it untouched; `export` renders
the entries in insertion order, both before and after further
activity.  The read accessors (`get_step_state`, `export`,
`get_entries`) are pure functions of the state in this model and
mutate nothing by construction. -/
theorem execution_records_append_only (st : ExecutionState) (step : Int)
    (code : String) (result : Option String) (success : Bool)
    (error : Option String) (msg : String) (s2 : Int) (v : StepState) :
    (st.record_result step code result success error).entries
      = st.entries ++
        [{ code := code, result := if success then result else none,
           success := success, error := if success then none else error,
           step := some step }] ∧
    (st.record_context step msg).entries
      = st.entries ++
        [{ code := "", result := some msg, success := true, error := none,
           step := some step, is_internal_context := true }] ∧
    (st.set_step_state s2 v).entries = st.entries ∧
    (st.reset_step s2).entries = st.entries ∧
    st.export = st.entries.map exportEntry ∧
    (st.record_result step code result success error).export
      = st.export ++
        [exportEntry
          { code := code, result := if success then result else none,
            success := success, error := if success then none else error,
            step := some step }] := by
  refine ⟨?_, rfl, rfl, rfl, rfl, ?_⟩
  · cases success <;>
      simp [ExecutionState.record_result]
  · cases success <;>
      simp [ExecutionState.record_result, ExecutionState.export]

/- ===== C2: skip branch of the correction flow (code bug) ===== -/

/-- C2 (evaluation at the failing input): with the pointer at step 2
and step 2 recorded `completed` with result `R`, choosing `skip` for a
correction affecting step 2 stores exactly
`StepState { step := 2, status := completed, result := some "R" }` -
the original result is preserved and the status is `completed`, but no
`user_accepted` marking exists anywhere in the stored value, because
`StepState` (chaos/types.py) declares no such field and the
`user_accepted=True` keyword passed at execution.py line 225 is
silently discarded by pydantic.  No retrieval is dispatched for the
turn (second component `none`). -/
theorem handle_correction_skip_eval :
    (handle_correction_skip skipExampleState 2).1.get_step_state 2
      = some { step := 2, status := .completed, result := some "R" } ∧
    (handle_correction_skip skipExampleState 2).1.current_step = 2 ∧
    (handle_correction_skip skipExampleState 2).2 = none := by
  refine ⟨?_, ?_, ?_⟩ <;>
    simp [handle_correction_skip, skipExampleState,
      ExecutionState.get_step_state, ExecutionState.set_step_state]

/- ===== C5: host-side sandbox bridge failure shapes ===== -/

/-- Helper for C5: on a well-typed string-or-null field value,
pydantic validation succeeds. -/
lemma validateOptStr_ok_of_wellTyped (v : Option JsonVal)
    (h : wellTypedField v = true) : ∃ s, validateOptStr v = .ok s := by
  cases v with
  | none => exact ⟨none, rfl⟩
  | some jv =>
      cases jv with
      | null => exact ⟨none, rfl⟩
      | str s => exact ⟨some s, rfl⟩
      | bool b => simp [wellTypedField] at h
      | num => simp [wellTypedField] at h
      | arr elems => simp [wellTypedField] at h
      | obj fields => simp [wellTypedField] at h

/-- Helper for C5: on a well-typed boolean field value, pydantic
validation succeeds. -/
lemma validateBool_ok_of_wellTyped (v : Option JsonVal)
    (h : wellTypedBoolField v = true) : ∃ b, validateBool v = .ok b := by
  cases v with
  | none => exact ⟨false, rfl⟩
  | some jv =>
      cases jv with
      | bool b => exact ⟨b, rfl⟩
      | null => simp [wellTypedBoolField] at h
      | str s => simp [wellTypedBoolField] at h
      | num => simp [wellTypedBoolField] at h
      | arr elems => simp [wellTypedBoolField] at h
      | obj fields => simp [wellTypedBoolField] at h

/-- C5 (counterexample to the claim as stated): an invocation of the
bridge from which an exception propagates to the caller.  With exit
code 0 and stdout `null` - valid JSON, so `json.loads` succeeds, but
not an object - the field access `output.get("error")` at
sandbox.py line 63, which sits outside the `try`, raises
`AttributeError`. -/
theorem execute_sandboxed_raises_counterexample :
    execute_sandboxed (.completed 0 "null" "" (some JsonVal.null))
      = .error PyError.attributeError := by
  simp [execute_sandboxed]

/-- C5 (amended): each of the four guarded failure modes (docker
missing, wall-clock timeout, nonzero worker exit, stdout that fails
JSON parsing) yields the same three-field `ExecutionResult` shape
with `result = none` and a populated error string, with no exception;
and no exception propagates when a zero-exit stdout parses to a JSON
object with well-typed fields.  But when a zero-exit stdout parses to
a non-object JSON value, the field access raises `AttributeError`
which propagates to the caller (see the counterexample), so the
original universal no-exception guarantee fails. -/
theorem execute_sandboxed_failure_shapes (rc : Int) (stdout stderr : String)
    (parsed : Option JsonVal) (fields : List (String × JsonVal)) (v : JsonVal)
    (hrc : rc ≠ 0) (hwt : wellTypedOutput fields = true)
    (hv : v.isObj = false) :
    execute_sandboxed .fileNotFound
      = .ok { result := none,
              error := some "Docker is not installed or not in PATH",
              truncated := false } ∧
    execute_sandboxed .timeoutExpired
      = .ok { result := none,
              error := some ("Sandbox execution timed out after "
                ++ toString CONTAINER_TIMEOUT ++ "s"),
              truncated := false } ∧
    execute_sandboxed (.completed rc stdout stderr parsed)
      = .ok { result := none,
              error := some ("Sandbox container failed (exit " ++ toString rc
                ++ "): " ++ stderr.trim),
              truncated := false } ∧
    execute_sandboxed (.completed 0 stdout stderr none)
      = .ok { result := none,
              error := some ("Sandbox returned invalid JSON: "
                ++ stdout.take 500),
              truncated := false } ∧
    (∃ r, execute_sandboxed (.completed 0 stdout stderr (some (.obj fields)))
      = .ok r) ∧
    execute_sandboxed (.completed 0 stdout stderr (some v))
      = .error .attributeError := by
  refine ⟨rfl, rfl, ?_, ?_, ?_, ?_⟩
  · simp [execute_sandboxed, hrc]
  · simp [execute_sandboxed]
  · simp only [wellTypedOutput, Bool.and_eq_true] at hwt
    obtain ⟨⟨h1, h2⟩, h3⟩ := hwt
    obtain ⟨e1, he1⟩ := validateOptStr_ok_of_wellTyped _ h2
    obtain ⟨r1, hr1⟩ := validateOptStr_ok_of_wellTyped _ h1
    obtain ⟨b1, hb1⟩ := validateBool_ok_of_wellTyped _ h3
    refine ⟨{ result := r1, error := e1, truncated := b1 }, ?_⟩
    simp [execute_sandboxed, he1, hr1, hb1]
  · cases v with
    | obj fields2 => simp [JsonVal.isObj] at hv
    | null => simp [execute_sandboxed]
    | bool b => simp [execute_sandboxed]
    | num => simp [execute_sandboxed]
    | str s => simp [execute_sandboxed]
    | arr elems => simp [execute_sandboxed]

/-- Witness for C5 (amended) at concrete inputs: a zero-exit
well-typed worker object produces a plain `ExecutionResult`, and a
zero-exit JSON array raises `AttributeError` (hypotheses discharged
at exit code 1, a concrete well-typed object and a non-object
value). -/
theorem execute_sandboxed_failure_shapes_witness :
    (∃ r, execute_sandboxed (.completed 0 "[]" "boom"
        (some (.obj [("result", JsonVal.str "5"), ("error", JsonVal.null),
                     ("truncated", JsonVal.bool true)])))
      = .ok r) ∧
    execute_sandboxed (.completed 0 "[]" "boom" (some (JsonVal.arr [])))
      = .error .attributeError := by
  have h := execute_sandboxed_failure_shapes 1 "[]" "boom" none
    [("result", JsonVal.str "5"), ("error", JsonVal.null),
     ("truncated", JsonVal.bool true)]
    (JsonVal.arr []) (by decide) rfl rfl
  exact ⟨h.2.2.2.2.1, h.2.2.2.2.2⟩

/- ===== C6: missing primary dataset in the worker (corrected) ===== -/

/-- C6 (counterexample to the claim as stated): a request naming the
absent primary dataset `missing` while the data directory holds the
dataset `other` does not produce a missing-dataset error envelope -
the worker falls back to the first available dataset and executes the
snippet against it. -/
theorem worker_main_fallback_counterexample :
    worker_main "result = 1" "missing" [("other", (7 : Nat))]
      = WorkerResult.executed 7 [("other", 7)] := by
  rfl

/-- C6 (amended): when the requested primary dataset is absent, the
worker returns the distinct missing-dataset error envelope
(`result = null`, three-field shape) only when no datasets exist at
all; when at least one dataset is present it instead executes the
snippet against the first available dataset. -/
theorem worker_main_missing_dataset {DF : Type} (code primary_source : String)
    (datasets : List (String × DF)) (hc : code ≠ "")
    (habs : datasets.lookup primary_source = none) :
    (datasets = [] →
      worker_main code primary_source datasets
        = .errorOut { result := none, error := some "No datasets found in /data",
                      truncated := false }) ∧
    (∀ d rest, datasets = d :: rest →
      worker_main code primary_source datasets = .executed d.2 datasets) := by
  constructor
  · intro hnil
    subst hnil
    simp [worker_main, pick_primary, hc]
  · intro d rest hcons
    subst hcons
    simp [worker_main, pick_primary, hc, habs]

/-- Witness for C6 (amended) at concrete inputs: an empty data
directory produces the missing-dataset envelope, and a directory with
one other dataset leads to execution against that dataset. -/
theorem worker_main_missing_dataset_witness :
    (worker_main "result = 1" "missing" ([] : List (String × Nat))
      = .errorOut { result := none, error := some "No datasets found in /data",
                    truncated := false }) ∧
    (worker_main "result = 1" "missing" [("other", (7 : Nat))]
      = .executed 7 [("other", 7)]) := by
  constructor
  · exact (worker_main_missing_dataset "result = 1" "missing"
      ([] : List (String × Nat)) (by decide) rfl).1 rfl
  · exact (worker_main_missing_dataset "result = 1" "missing"
      [("other", (7 : Nat))] (by decide) rfl).2 ("other", 7) [] rfl

/- ===== C1: forced termination of the sensemaking loop ===== -/

/-- Helper for C1: once the tracker already remembers step `s`, any
run of consecutive needs-info decisions for `s` long enough to push
the counter to the budget makes the loop return the forced
best-effort answer. -/
lemma loopRun_fires_of_repeat (max_step_attempts : Nat)
    (get_answer : FinalAnswer) (s : Int) :
    ∀ (ds rest : List SMDecision) (t : Track),
      t.last_step = some s →
      1 ≤ ds.length →
      max_step_attempts ≤ t.step_retries + ds.length →
      (∀ d ∈ ds, ∃ rq rs, d = SMDecision.needsInfo s rq rs) →
      loopRun max_step_attempts get_answer t (ds ++ rest)
        = some (LoopOutcome.forcedAnswer get_answer) := by
  intro ds
  induction ds with
  | nil =>
      intro rest t _ hlen _ _
      simp at hlen
  | cons d ds ih =>
      intro rest t hlast hlen hsum hall
      obtain ⟨rq, rs, hd⟩ := hall d (List.mem_cons_self d ds)
      subst hd
      have hcond : ¬ (some s ≠ t.last_step) := by simp [hlast]
      simp only [List.length_cons] at hsum
      by_cases hfire : max_step_attempts ≤ t.step_retries + 1
      · simp [loopRun, hcond, hfire]
      · have hstep :
            loopRun max_step_attempts get_answer t
              (SMDecision.needsInfo s rq rs :: (ds ++ rest))
            = loopRun max_step_attempts get_answer
                { t with step_retries := t.step_retries + 1 } (ds ++ rest) := by
          simp [loopRun, hcond, hfire]
        rw [List.cons_append, hstep]
        exact ih rest { t with step_retries := t.step_retries + 1 } hlast
          (by omega) (by simp; omega)
          (fun d hd => hall d (List.mem_cons_of_mem _ hd))

/-- C1: the per-step attempt counter of `execute_plan` resets when
the requested step number changes between turns and increments when
the same step is requested again; once the decision collaborator has
requested the same step more than `max_step_attempts` consecutive
times - that is, within any `max_step_attempts + 1` consecutive
needs-info decisions naming the same step, starting from any tracker
state - the loop stops and returns the best-effort answer synthesized
by `get_answer` via the forced path (a plain return value: the
embedded loop is a total function, so this path neither loops on nor
raises). -/
theorem execute_plan_forced_termination (max_step_attempts : Nat)
    (get_answer : FinalAnswer) (t : Track) (s : Int)
    (ds rest : List SMDecision)
    (hmax : 1 ≤ max_step_attempts)
    (hlen : ds.length = max_step_attempts + 1)
    (hall : ∀ d ∈ ds, ∃ rq rs, d = SMDecision.needsInfo s rq rs) :
    loopRun max_step_attempts get_answer t (ds ++ rest)
      = some (LoopOutcome.forcedAnswer get_answer) := by
  by_cases hlast : t.last_step = some s
  · exact loopRun_fires_of_repeat max_step_attempts get_answer s ds rest t
      hlast (by omega) (by omega) hall
  · cases ds with
    | nil => simp at hlen
    | cons d ds2 =>
        obtain ⟨rq, rs, hd⟩ := hall d (List.mem_cons_self d ds2)
        subst hd
        have hcond : some s ≠ t.last_step := fun h => hlast h.symm
        have hstep :
            loopRun max_step_attempts get_answer t
              (SMDecision.needsInfo s rq rs :: (ds2 ++ rest))
            = loopRun max_step_attempts get_answer
                { last_step := some s, step_retries := 0 } (ds2 ++ rest) := by
          simp [loopRun, hcond]
        rw [List.cons_append, hstep]
        simp only [List.length_cons] at hlen
        exact loopRun_fires_of_repeat max_step_attempts get_answer s ds2 rest
          { last_step := some s, step_retries := 0 } rfl (by omega) (by omega)
          (fun d hd => hall d (List.mem_cons_of_mem _ hd))

/-- Witness for C1: budget 1, fresh tracker, two consecutive
needs-info decisions for step 1 - the loop returns the forced
best-effort answer. -/
theorem execute_plan_forced_termination_witness :
    loopRun 1 { answer := "best effort", supporting_evidence := [] }
      { last_step := none, step_retries := 0 }
      [SMDecision.needsInfo 1 "r" "", SMDecision.needsInfo 1 "r" ""]
      = some (LoopOutcome.forcedAnswer
          { answer := "best effort", supporting_evidence := [] }) := by
  have h := execute_plan_forced_termination 1
    { answer := "best effort", supporting_evidence := [] }
    { last_step := none, step_retries := 0 } 1
    [SMDecision.needsInfo 1 "r" "", SMDecision.needsInfo 1 "r" ""] []
    (by norm_num) (by simp)
    (by
      intro d hd
      have hde : d = SMDecision.needsInfo 1 "r" "" := by simpa using hd
      exact ⟨"r", "", hde⟩)
  simpa using h

/- ===== C8: pointer monotonicity (corrected) ===== -/

/-- C8 (counterexample to the claim as stated): on a normal
needs-info turn - no `reset_step`, no `reset`, no correction - with
the sensemaker pointer at step 3, a decision naming step 1 moves the
pointer down to 1, i.e. to a smaller step number. -/
theorem pointer_monotonic_counterexample :
    pointerUpdate 3 (SMDecision.needsInfo 1 "compute step 1" "") = 1 ∧
    pointerUpdate 3 (SMDecision.needsInfo 1 "compute step 1" "") < 3 := by
  constructor <;> simp [pointerUpdate]

/-- C8 (amended): across any sequence of `process` turns in which
neither `reset_step` nor `reset` is invoked, the current-step pointer
is non-decreasing provided every needs-info decision names a step
number at least equal to the pointer current at its turn; a needs-info
decision naming a smaller step moves the pointer down to that step
(see the counterexample). -/
theorem pointer_monotone_of_forward_requests (cur : Int)
    (ds : List SMDecision)
    (h : ∀ i, (hi : i < ds.length) → ∀ s rq rs,
      ds.get ⟨i, hi⟩ = SMDecision.needsInfo s rq rs →
      runPointer cur (ds.take i) ≤ s) :
    cur ≤ runPointer cur ds := by
  induction ds generalizing cur with
  | nil => simp [runPointer]
  | cons d ds ih =>
      have h0 : cur ≤ pointerUpdate cur d := by
        cases d with
        | needsInfo s rq rs =>
            have hcs : cur ≤ s := by
              have := h 0 (by simp) s rq rs (by simp)
              simpa [runPointer] using this
            by_cases hsc : s = cur
            · subst hsc
              simp [pointerUpdate]
            · simp [pointerUpdate, hsc]
              omega
        | complete a ev => simp [pointerUpdate]
        | needsCorrection a b c e => simp [pointerUpdate]
      have hrec : pointerUpdate cur d ≤ runPointer (pointerUpdate cur d) ds := by
        apply ih
        intro i hi s rq rs hg
        have := h (i + 1) (by simpa using Nat.succ_lt_succ hi) s rq rs
          (by simpa using hg)
        simpa [runPointer, List.take_succ_cons] using this
      calc cur ≤ pointerUpdate cur d := h0
        _ ≤ runPointer (pointerUpdate cur d) ds := hrec
        _ = runPointer cur (d :: ds) := rfl

/-- Witness for C8 (amended): pointer 1 and decisions naming steps 1
then 2 (each at least the pointer of its turn) leave the pointer
non-decreasing. -/
theorem pointer_monotone_of_forward_requests_witness :
    (1 : Int) ≤ runPointer 1
      [SMDecision.needsInfo 1 "a" "b", SMDecision.needsInfo 2 "c" "d"] := by
  apply pointer_monotone_of_forward_requests
  intro i hi s rq rs hg
  have hi2 : i < 2 := by simpa using hi
  interval_cases i
  · simp only [List.get] at hg
    injection hg with h1 h2 h3
    subst h1
    simp [runPointer]
  · simp only [List.get] at hg
    injection hg with h1 h2 h3
    subst h1
    simp [runPointer, pointerUpdate]

/- ===== C10: same-step needs-info increments and attribution ===== -/

/-- C10: when `process` returns a needs-info decision whose
`current_step` equals the agent's internal pointer, the pointer is
incremented by one, and the memory entry recorded for the information
arriving on the immediately following turn is attributed to the
incremented step number - not to the step number the decision named. -/
theorem process_same_step_attribution (st : SMState)
    (new_info : Option InfoSeekerResult) (rq rs : String)
    (info2 : InfoSeekerResult) (d2 : SMDecision) (s : Int)
    (hs : s = st.current_step) :
    (smProcess st new_info (.needsInfo s rq rs)).current_step
      = st.current_step + 1 ∧
    (smProcess (smProcess st new_info (.needsInfo s rq rs)) (some info2) d2).memory
      = (smProcess st new_info (.needsInfo s rq rs)).memory ++
        [{ code := getParam info2.params "code"
           result := if info2.success then some info2.results else none
           success := info2.success
           error := if info2.success then none else some info2.results
           step := st.current_step + 1 }] := by
  subst hs
  constructor
  · cases new_info <;> simp [smProcess, pointerUpdate]
  · cases new_info <;> cases d2 <;> simp [smProcess, pointerUpdate]

/-- Witness for C10: pointer at 1, a needs-info decision naming step
1 moves the pointer to 2, and the next turn's incoming information is
recorded against step 2. -/
theorem process_same_step_attribution_witness :
    (smProcess { current_step := 1, memory := [] } none
      (.needsInfo 1 "r" "")).current_step = 2 ∧
    (smProcess (smProcess { current_step := 1, memory := [] } none
        (.needsInfo 1 "r" ""))
      (some { request := "r", source := "csv", query_type := "exec",
              params := [("code", "result = 1")], results := "42",
              success := true })
      (.complete "done" [])).memory
      = (smProcess { current_step := 1, memory := [] } none
          (.needsInfo 1 "r" "")).memory ++
        [{ code := "result = 1", result := some "42", success := true,
           error := none, step := 2 }] := by
  have h := process_same_step_attribution { current_step := 1, memory := [] }
    none "r" ""
    { request := "r", source := "csv", query_type := "exec",
      params := [("code", "result = 1")], results := "42", success := true }
    (.complete "done" []) 1 rfl
  constructor
  · exact h.1
  · have h2 := h.2
    simpa [getParam] using h2

/- ===== C3: retrieval retry helper ===== -/

/-- Helper for C3: appending the failure text of attempt `a` to the
error history before attempt `a` gives the history before attempt
`a + 1`. -/
lemma errHist_succ (seeker : Nat → String → InfoSeekerResult)
    (info_request : String) (a : Nat) :
    errHist seeker info_request a ++
        [(seeker a (buildRequest info_request (errHist seeker info_request a))).results]
      = errHist seeker info_request (a + 1) := by
  simp [errHist]

/-- Helper for C3: when every attempt in the remaining window fails,
the retry loop runs the whole window, returns the last failing result,
and passes the history-extended request texts in order. -/
lemma seekGo_all_fail (seeker : Nat → String → InfoSeekerResult)
    (info_request : String) :
    ∀ (rem a : Nat) (last : Option InfoSeekerResult),
      1 ≤ rem →
      (∀ j, a ≤ j → j < a + rem →
        (resAt seeker info_request j).success = false) →
      seekGo seeker info_request a rem (errHist seeker info_request a) last
        = (some (resAt seeker info_request (a + rem - 1)),
           (List.range rem).map (fun k => reqAt seeker info_request (a + k))) := by
  intro rem
  induction rem with
  | zero => intro a last h1 _; omega
  | succ n ih =>
      intro a last _ hfail
      have hfa : (seeker a (buildRequest info_request
          (errHist seeker info_request a))).success = false :=
        hfail a le_rfl (by omega)
      rcases Nat.eq_zero_or_pos n with hn | hn
      · subst hn
        simp [seekGo, hfa, resAt, reqAt, List.range_succ]
      · have hrec := ih (a + 1)
          (some (seeker a (buildRequest info_request (errHist seeker info_request a))))
          hn (fun j hj1 hj2 => hfail j (by omega) (by omega))
        simp only [seekGo, hfa, Bool.false_eq_true, if_false,
          errHist_succ seeker info_request a, hrec]
        refine Prod.ext ?_ ?_
        · show some (resAt seeker info_request (a + 1 + n - 1))
            = some (resAt seeker info_request (a + (n + 1) - 1))
          have he : a + 1 + n - 1 = a + (n + 1) - 1 := by omega
          rw [he]
        · show buildRequest info_request (errHist seeker info_request a) ::
              (List.range n).map (fun k => reqAt seeker info_request (a + 1 + k))
            = (List.range (n + 1)).map (fun k => reqAt seeker info_request (a + k))
          rw [List.range_succ_eq_map, List.map_cons, List.map_map]
          have hf : ((fun k => reqAt seeker info_request (a + k)) ∘ Nat.succ)
              = fun k => reqAt seeker info_request (a + 1 + k) := by
            funext k
            show reqAt seeker info_request (a + (k + 1))
              = reqAt seeker info_request (a + 1 + k)
            have : a + (k + 1) = a + 1 + k := by omega
            rw [this]
          rw [hf]
          simp [reqAt]

/-- Helper for C3: when the first success happens at attempt `j`
inside the remaining window, the retry loop returns it immediately,
having made exactly the calls up to and including attempt `j`, each on
its history-extended request. -/
lemma seekGo_first_success (seeker : Nat → String → InfoSeekerResult)
    (info_request : String) :
    ∀ (rem a j : Nat) (last : Option InfoSeekerResult),
      a ≤ j → j < a + rem →
      (∀ i, a ≤ i → i < j → (resAt seeker info_request i).success = false) →
      (resAt seeker info_request j).success = true →
      seekGo seeker info_request a rem (errHist seeker info_request a) last
        = (some (resAt seeker info_request j),
           (List.range (j + 1 - a)).map (fun k => reqAt seeker info_request (a + k))) := by
  intro rem
  induction rem with
  | zero => intro a j last h1 h2 _ _; omega
  | succ n ih =>
      intro a j last haj hjr hfail hsucc
      by_cases hja : j = a
      · subst hja
        have hsa : (seeker j (buildRequest info_request
            (errHist seeker info_request j))).success = true := hsucc
        simp [seekGo, hsa, resAt, reqAt, Nat.add_sub_cancel_left, List.range_succ]
      · have haj2 : a < j := by omega
        have hfa : (seeker a (buildRequest info_request
            (errHist seeker info_request a))).success = false :=
          hfail a le_rfl haj2
        have hrec := ih (a + 1) j
          (some (seeker a (buildRequest info_request (errHist seeker info_request a))))
          (by omega) (by omega) (fun i hi1 hi2 => hfail i (by omega) hi2) hsucc
        simp only [seekGo, hfa, Bool.false_eq_true, if_false,
          errHist_succ seeker info_request a, hrec]
        refine Prod.ext rfl ?_
        show buildRequest info_request (errHist seeker info_request a) ::
            (List.range (j + 1 - (a + 1))).map
              (fun k => reqAt seeker info_request (a + 1 + k))
          = (List.range (j + 1 - a)).map (fun k => reqAt seeker info_request (a + k))
        have h1 : j + 1 - a = (j - a) + 1 := by omega
        have h2 : j + 1 - (a + 1) = j - a := by omega
        rw [h1, h2, List.range_succ_eq_map, List.map_cons, List.map_map]
        have hf : ((fun k => reqAt seeker info_request (a + k)) ∘ Nat.succ)
            = fun k => reqAt seeker info_request (a + 1 + k) := by
          funext k
          show reqAt seeker info_request (a + (k + 1))
            = reqAt seeker info_request (a + 1 + k)
          have : a + (k + 1) = a + 1 + k := by omega
          rw [this]
        rw [hf]
        simp [reqAt]

/-- C3: for every retrieval request, `_seek_with_retries` calls the
information seeker at most `max_code_retries` times (the recorded
call list has at most that length); each call's request text is the
original request extended with the failure texts of all previous
attempts, in order (`reqAt`); the first successful result is returned
immediately, after exactly `j + 1` calls when the first success is at
attempt `j`; and when every attempt fails the last failing result is
returned as-is as a regular failed outcome - `some` result, success
false - without raising (the embedded `assert` can only fire for a
zero budget, excluded by the hypothesis `1 ≤ max_code_retries`; the
budget is a configuration knob). -/
theorem seek_with_retries_spec (max_code_retries : Nat)
    (seeker : Nat → String → InfoSeekerResult) (info_request : String)
    (hpos : 1 ≤ max_code_retries) :
    (seekWithRetries max_code_retries seeker info_request).2.length
        ≤ max_code_retries ∧
    (seekWithRetries max_code_retries seeker info_request).2
      = (List.range
          (seekWithRetries max_code_retries seeker info_request).2.length).map
          (reqAt seeker info_request) ∧
    (seekWithRetries max_code_retries seeker info_request).1.isSome = true ∧
    (∀ j, j < max_code_retries →
      (∀ i, i < j → (resAt seeker info_request i).success = false) →
      (resAt seeker info_request j).success = true →
      (seekWithRetries max_code_retries seeker info_request).1
          = some (resAt seeker info_request j) ∧
      (seekWithRetries max_code_retries seeker info_request).2.length = j + 1) ∧
    ((∀ i, i < max_code_retries →
        (resAt seeker info_request i).success = false) →
      (seekWithRetries max_code_retries seeker info_request).1
          = some (resAt seeker info_request (max_code_retries - 1)) ∧
      (resAt seeker info_request (max_code_retries - 1)).success = false ∧
      (seekWithRetries max_code_retries seeker info_request).2.length
          = max_code_retries) := by
  have h0 : errHist seeker info_request 0 = [] := rfl
  have hzero : (fun k => reqAt seeker info_request (0 + k))
      = reqAt seeker info_request := by
    funext k
    rw [Nat.zero_add]
  have hOne : ∃ c, c < max_code_retries ∧
      seekWithRetries max_code_retries seeker info_request
        = (some (resAt seeker info_request c),
           (List.range (c + 1)).map (reqAt seeker info_request)) := by
    by_cases hex : ∃ j, (resAt seeker info_request j).success = true ∧
        j < max_code_retries
    · obtain ⟨j, hjs, hjm⟩ := hex
      have hex2 : ∃ j, (resAt seeker info_request j).success = true := ⟨j, hjs⟩
      refine ⟨Nat.find hex2, lt_of_le_of_lt (Nat.find_min' hex2 hjs) hjm, ?_⟩
      have hmain := seekGo_first_success seeker info_request max_code_retries 0
        (Nat.find hex2) none (Nat.zero_le _)
        (by
          have := lt_of_le_of_lt (Nat.find_min' hex2 hjs) hjm
          omega)
        (fun i _ hi => by simpa using Nat.find_min hex2 hi)
        (Nat.find_spec hex2)
      rw [h0] at hmain
      rw [seekWithRetries, hmain, Nat.sub_zero, hzero]
    · push_neg at hex
      have hfailall : ∀ i, i < max_code_retries →
          (resAt seeker info_request i).success = false := by
        intro i hi
        have := hex i
        rcases Bool.eq_false_or_eq_true (resAt seeker info_request i).success with
          hb | hb
        · exact absurd (this hb) (Nat.not_le.mpr hi)
        · exact hb
      refine ⟨max_code_retries - 1, by omega, ?_⟩
      have hmain := seekGo_all_fail seeker info_request max_code_retries 0 none
        hpos (fun j _ hj => hfailall j (by omega))
      rw [h0] at hmain
      have hm1 : max_code_retries - 1 + 1 = max_code_retries := by omega
      rw [seekWithRetries, hmain, Nat.zero_add, hzero, hm1]
  obtain ⟨c, hcm, hres⟩ := hOne
  refine ⟨?_, ?_, ?_, ?_, ?_⟩
  · rw [hres]
    simp
    omega
  · rw [hres]
    simp
  · rw [hres]
    rfl
  · intro j hjm hbefore hsucc
    have hmain := seekGo_first_success seeker info_request max_code_retries 0 j
      none (Nat.zero_le _) (by omega) (fun i _ hi => hbefore i hi) hsucc
    rw [h0] at hmain
    rw [seekWithRetries, hmain, Nat.sub_zero, hzero]
    simp
  · intro hallfail
    have hmain := seekGo_all_fail seeker info_request max_code_retries 0 none
      hpos (fun j _ hj => hallfail j (by omega))
    rw [h0] at hmain
    rw [seekWithRetries, hmain, Nat.zero_add]
    refine ⟨rfl, hallfail _ (by omega), by simp⟩

/-- Witness for C3: budget 2 and a seeker that succeeds on its first
attempt - the helper returns that result after exactly one call. -/
theorem seek_with_retries_spec_witness :
    (seekWithRetries 2 constSeeker "q").1
        = some (resAt constSeeker "q" 0) ∧
    (seekWithRetries 2 constSeeker "q").2.length = 1 :=
  (seek_with_retries_spec 2 constSeeker "q" (by norm_num)).2.2.2.1 0
    (by norm_num) (fun i hi => absurd hi (Nat.not_lt_zero i)) rfl

end Chaos
